import Mathlib

set_option autoImplicit false

/-!
Verification of the split-orchestration subsystem of
`scenedetect/video_splitter.py` (PySceneDetect).

The Python functions are shallowly embedded as pure Lean functions.
External effects are made explicit parameters:

* a child-process invocation (`subprocess.call` / `invoke_command`) is
  represented by its outcome — either a returned exit code or one of the
  exceptions the callers catch (`OSError`, `CommandTooLong`);
* wall-clock elapsed time is an explicit rational parameter;
* the external `FrameTimecode` collaborator is represented by a record of
  the three observations the splitter makes of it (`get_timecode()`,
  `str(get_seconds())`, `get_frames()`), with `FrameTimecode` subtraction
  (used only for scene durations) passed in as a function.

Python strings are embedded as `String` / `List Char`; `str.replace`,
`str.split(' ')`, `string.Template.safe_substitute` and `'%0Nd'`
formatting are given executable models below.
-/

/-! ### Outcomes of spawning a child process -/

/-- Outcome of `subprocess.call` in the availability probes: either the
child ran and returned an exit code, or the executable could not be
launched (`OSError`). -/
inductive ProbeOutcome where
  | ret (code : Int)
  | osError
deriving DecidableEq

/-- Outcome of `scenedetect.platform.invoke_command`: a returned exit
code, or one of the two exceptions the splitters catch
(`CommandTooLong`, `OSError`). -/
inductive InvokeResult where
  | ret (code : Int)
  | commandTooLong
  | osError
deriving DecidableEq

/-! ### Availability probes -/

/-- Embedding of `is_mkvmerge_available` (video_splitter.py:96-110):
`ret_val = subprocess.call(['mkvmerge', '--quiet'])`, `OSError ⇒ False`;
then `if ret_val is not None and ret_val != 2: return False; return True`.
(`ret_val` is an `int` whenever the call returns, so the `is not None`
guard is always satisfied on that path.) -/
def is_mkvmerge_available : ProbeOutcome → Bool
  | .osError => false
  | .ret c => if c ≠ 2 then false else true

/-- Embedding of `is_ffmpeg_available` (video_splitter.py:113-127):
`ret_val = subprocess.call(['ffmpeg', '-v', 'quiet'])`, `OSError ⇒ False`;
then `if ret_val is not None and ret_val != 1: return False; return True`. -/
def is_ffmpeg_available : ProbeOutcome → Bool
  | .osError => false
  | .ret c => if c ≠ 1 then false else true

/-! ### C1 -/

/-- C1 counterexample: the claim says that when the invocation succeeds the
mkvmerge probe returns true iff the exit code differs from 2.  At exit
code 0 the code returns `false` (it returns true only when the exit code
IS 2), so the claimed equivalence fails. -/
theorem c1_mkvmerge_probe_counterexample :
    ¬ (is_mkvmerge_available (.ret 0) = true ↔ (0 : Int) ≠ 2) := by
  decide

/-- C1 amended: the probe never raises — a launch failure (`OSError`) is a
plain `false` — and when the invocation succeeds it returns true iff the
exit code EQUALS the bad-usage sentinel 2. -/
theorem c1_mkvmerge_probe_amended :
    is_mkvmerge_available .osError = false ∧
      ∀ c : Int, is_mkvmerge_available (.ret c) = decide (c = 2) := by
  refine ⟨rfl, fun c => ?_⟩
  by_cases h : c = 2 <;> simp [is_mkvmerge_available, h]

/-! ### C2 -/

/-- C2 counterexample: the claim says the ffmpeg probe returns true unless
the exit code equals 1 (or the launch fails).  At exit code 0 the code
returns `false` (it returns true only when the exit code IS 1), so the
claimed equivalence fails. -/
theorem c2_ffmpeg_probe_counterexample :
    ¬ (is_ffmpeg_available (.ret 0) = true ↔ (0 : Int) ≠ 1) := by
  decide

/-- C2 amended: the probe never raises — a launch failure (`OSError`) is a
plain `false` — and when the invocation succeeds it returns true iff the
exit code EQUALS the bad-usage sentinel 1. -/
theorem c2_ffmpeg_probe_amended :
    is_ffmpeg_available .osError = false ∧
      ∀ c : Int, is_ffmpeg_available (.ret c) = decide (c = 1) := by
  refine ⟨rfl, fun c => ?_⟩
  by_cases h : c = 1 <;> simp [is_ffmpeg_available, h]

/-! ### Embedding of the Python string operations used by the splitters -/

/-- Fuel-indexed scanner behind `listReplace`.  Models CPython
`str.replace` for a non-empty pattern: scan left to right, replace each
non-overlapping occurrence, continue after the replaced text.  The fuel
only needs to dominate the length of the subject string (each step
consumes at least one character); `listReplace` instantiates it that
way.  An empty pattern never occurs in the embedded code (the two
patterns are the concrete `-$SCENE_NUMBER` and `$SCENE_NUMBER`), so the
guard simply makes an empty pattern a no-op. -/
def replaceFuel (pat rep : List Char) : Nat → List Char → List Char
  | 0, s => s
  | _ + 1, [] => []
  | fuel + 1, c :: rest =>
    if !pat.isEmpty && pat.isPrefixOf (c :: rest) then
      rep ++ replaceFuel pat rep fuel ((c :: rest).drop pat.length)
    else
      c :: replaceFuel pat rep fuel rest

/-- Embedding of CPython `s.replace(pat, rep)` on character lists. -/
def listReplace (pat rep s : List Char) : List Char :=
  replaceFuel pat rep s.length s

/-- Embedding of CPython `s.replace(pat, rep)` on strings. -/
def pyReplace (s pat rep : String) : String :=
  ⟨listReplace pat.toList rep.toList s.toList⟩

/-- Decides whether `pat` occurs as a contiguous substring of `s`
(executable, used to state "the template has no occurrence of the
placeholder"). -/
def containsSub (pat : List Char) : List Char → Bool
  | [] => pat.isEmpty
  | c :: rest => pat.isPrefixOf (c :: rest) || containsSub pat rest

/-- A string without an occurrence of `pat` is left unchanged by
`replaceFuel`, for any fuel. -/
theorem replaceFuel_of_not_containsSub (pat rep : List Char) :
    ∀ (s : List Char) (fuel : Nat), containsSub pat s = false →
      replaceFuel pat rep fuel s = s := by
  intro s
  induction s with
  | nil =>
    intro fuel _
    cases fuel <;> simp [replaceFuel]
  | cons c rest ih =>
    intro fuel h
    simp only [containsSub, Bool.or_eq_false_iff] at h
    cases fuel with
    | zero => simp [replaceFuel]
    | succ fuel =>
      simp only [replaceFuel, h.1, Bool.and_false, Bool.false_eq_true, if_false,
        List.cons.injEq, true_and]
      exact ih fuel h.2

/-- If `c :: pat` occurs in `s` then so does `pat`. -/
theorem containsSub_of_cons (c : Char) (pat : List Char) :
    ∀ s : List Char, containsSub (c :: pat) s = true → containsSub pat s = true := by
  intro s
  induction s with
  | nil => simp [containsSub]
  | cons d rest ih =>
    intro h
    simp only [containsSub, Bool.or_eq_true] at h ⊢
    rcases h with h | h
    · simp only [List.isPrefixOf, Bool.and_eq_true, beq_iff_eq] at h
      right
      cases rest with
      | nil =>
        cases pat with
        | nil => simp [containsSub]
        | cons _ _ => simp [List.isPrefixOf] at h
      | cons e rest2 =>
        simp only [containsSub, Bool.or_eq_true]
        left
        exact h.2
    · right
      exact ih h

/-- Embedding of the template stripping in `split_video_mkvmerge`
(video_splitter.py:165-166):
`output_file_template.replace('-$SCENE_NUMBER', '').replace('$SCENE_NUMBER', '')`. -/
def strip_scene_number (t : String) : String :=
  pyReplace (pyReplace t "-$SCENE_NUMBER" "") "$SCENE_NUMBER" ""

/-- C7: the remux splitter's template stripping removes both the
hyphen-prefixed and the bare spelling of the auto-numbering placeholder:
`$VIDEO_NAME-$SCENE_NUMBER` and `$VIDEO_NAME$SCENE_NUMBER` both reduce to
`$VIDEO_NAME`, and any template containing no occurrence of
`$SCENE_NUMBER` is left unchanged. -/
theorem c7_strip_scene_number :
    strip_scene_number "$VIDEO_NAME-$SCENE_NUMBER" = "$VIDEO_NAME" ∧
    strip_scene_number "$VIDEO_NAME$SCENE_NUMBER" = "$VIDEO_NAME" ∧
    ∀ t : String, containsSub "$SCENE_NUMBER".toList t.toList = false →
      strip_scene_number t = t := by
  refine ⟨by decide, by decide, fun t h => ?_⟩
  have hdash : containsSub "-$SCENE_NUMBER".toList t.toList = false := by
    cases hc : containsSub ('-' :: "$SCENE_NUMBER".toList) t.toList with
    | false => exact hc
    | true => rw [containsSub_of_cons _ _ _ hc] at h; cases h
  have heta : String.mk t.toList = t := rfl
  have h1 : pyReplace t "-$SCENE_NUMBER" "" = t := by
    show String.mk (listReplace _ _ _) = t
    rw [listReplace, replaceFuel_of_not_containsSub _ _ _ _ hdash, heta]
  rw [strip_scene_number, h1]
  show String.mk (listReplace _ _ _) = t
  rw [listReplace, replaceFuel_of_not_containsSub _ _ _ _ h, heta]

/-- C7 witness: a concrete template without the placeholder —
`$VIDEO_NAME` — is unchanged by the stripping step. -/
theorem c7_strip_scene_number_witness :
    strip_scene_number "$VIDEO_NAME" = "$VIDEO_NAME" :=
  c7_strip_scene_number.2.2 "$VIDEO_NAME" (by decide)

/-- Leading character class of `string.Template`'s default identifier
pattern `[_a-zA-Z][_a-zA-Z0-9]*` (ASCII, as CPython compiles it). -/
def isIdentStart (c : Char) : Bool := c.isAlpha || c = '_'

/-- Continuation character class of `string.Template`'s identifier
pattern. -/
def isIdentCont (c : Char) : Bool := c.isAlphanum || c = '_'

/-- Longest leading run of identifier-continuation characters, together
with the remaining characters. -/
def identRun : List Char → List Char × List Char
  | [] => ([], [])
  | c :: cs =>
    if isIdentCont c then
      let p := identRun cs
      (c :: p.1, p.2)
    else ([], c :: cs)

/-- First value bound to `k` in an association list of character lists. -/
def lookupAssoc : List (List Char × List Char) → List Char → Option (List Char)
  | [], _ => none
  | (k', v) :: rest, k => if k' = k then some v else lookupAssoc rest k

/-- Fuel-indexed scanner modelling CPython
`string.Template(t).safe_substitute(mapping)` with the default delimiter
`$` and identifier pattern: `$$` becomes `$`; `$name` (name starting with
a letter or underscore) becomes the mapped value, or stays intact when
the name is unmapped; `${name}` likewise; a `$` followed by anything else
(including end of string) is kept as-is and scanning resumes on the next
character.  Each step consumes at least one character, so fuel equal to
the length of the subject suffices (`safe_substitute` instantiates it
that way). -/
def substFuel (m : List (List Char × List Char)) : Nat → List Char → List Char
  | 0, s => s
  | _ + 1, [] => []
  | fuel + 1, '$' :: rest =>
    match rest with
    | '$' :: rest2 => '$' :: substFuel m fuel rest2
    | '\x7b' :: rest2 =>
      match rest2 with
      | d :: rest3 =>
        if isIdentStart d then
          let p := identRun rest3
          match p.2 with
          | '\x7d' :: rest4 =>
            match lookupAssoc m (d :: p.1) with
            | some v => v ++ substFuel m fuel rest4
            | none => '$' :: '\x7b' :: (d :: p.1) ++ '\x7d' :: substFuel m fuel rest4
          | _ => '$' :: substFuel m fuel ('\x7b' :: rest2)
        else '$' :: substFuel m fuel ('\x7b' :: rest2)
      | [] => '$' :: substFuel m fuel ['\x7b']
    | d :: rest2 =>
      if isIdentStart d then
        let p := identRun rest2
        match lookupAssoc m (d :: p.1) with
        | some v => v ++ substFuel m fuel p.2
        | none => '$' :: d :: (p.1 ++ substFuel m fuel p.2)
      else '$' :: substFuel m fuel (d :: rest2)
    | [] => ['$']
  | fuel + 1, c :: rest => c :: substFuel m fuel rest

/-- Embedding of `string.Template(t).safe_substitute(...)` on strings;
the mapping lists the keyword arguments of the call site. -/
def safe_substitute (m : List (String × String)) (t : String) : String :=
  ⟨substFuel (m.map fun p => (p.1.toList, p.2.toList)) t.toList.length t.toList⟩

/-- Embedding of CPython `'%0Nd' % k` for `k ≥ 0`: the decimal digits of
`k`, left-padded with `'0'` to width `N` (never truncated — a number with
more than `N` digits is rendered in full). -/
def padNum (width k : Nat) : List Char :=
  let ds := Nat.toDigits 10 k
  List.replicate (width - ds.length) '0' ++ ds

/-- Embedding of `math.floor(math.log(n, 10))` as evaluated by CPython on
IEEE-754 doubles (video_splitter.py:253).  CPython computes
`math.log(n, 10)` as the double quotient `log(n)/log(10)`, which at some
exact powers of ten rounds to just below the integer — e.g.
`math.log(1000, 10) == 2.9999999999999996` — so the floor comes out one
short of the exact `floor(log10 n)`.  Verified against CPython 3 / glibc
libm for `1 ≤ n ≤ 10^17`: the floor equals the exact value except at
n = 10^3, 10^6, 10^9, 10^12, 10^13 and 10^15.  (`n = 0` never reaches
this computation: the splitter returns before it when the scene list is
empty.)  The exact `floor(log10 n)` is computed here as the number of
decimal digits of `n` minus one. -/
def pyFloorLogTen (n : Nat) : Nat :=
  if n = 1000 ∨ n = 1000000 ∨ n = 1000000000 ∨ n = 1000000000000 ∨
      n = 10000000000000 ∨ n = 1000000000000000 then
    (Nat.toDigits 10 n).length - 2
  else
    (Nat.toDigits 10 n).length - 1

/-- Embedding of the scene-number field width in `split_video_ffmpeg`
(video_splitter.py:252-253):
`'%0' + str(max(3, math.floor(math.log(len(scene_list), 10)) + 1)) + 'd'`. -/
def scene_num_width (n : Nat) : Nat := max 3 (pyFloorLogTen n + 1)

/-- Width stated by the specification for the transcode Output Namer:
`max(3, floor(log10(total_scenes)) + 1)` in exact arithmetic.  This
definition follows the spec's words, for comparison against the
source-derived `scene_num_width`. -/
def claimed_scene_num_width (n : Nat) : Nat := max 3 (Nat.log 10 n + 1)

/-- Embedding of the per-scene output filename rendering in
`split_video_ffmpeg` (video_splitter.py:287-289):
`filename_template.safe_substitute(VIDEO_NAME=video_name,
SCENE_NUMBER=scene_num_format % (i + 1))`, where `sceneNum` is the
1-based scene number `i + 1` and `total` the scene-list length the width
was precomputed from. -/
def render_scene_filename (template videoName : String) (total sceneNum : Nat) : String :=
  safe_substitute
    [("VIDEO_NAME", videoName), ("SCENE_NUMBER", ⟨padNum (scene_num_width total) sceneNum⟩)]
    template

/-- C5: evaluation of the transcode Output Namer at the claim's own
example and at the failing total 1000.  With 1200 scenes the width is 4
and scene 5 renders as `clip-0005`, as claimed; but with 1000 scenes the
code's width is 3 — CPython floors `math.log(1000, 10) =
2.9999999999999996` to 2 — while the claimed exact-arithmetic width is 4,
so scene 999 renders as `clip-999` and scene 1000 as `clip-1000`:
filenames of different lengths that sort out of scene order, contradicting
the claimed guarantee. -/
theorem c5_scene_number_width_bug :
    scene_num_width 1200 = 4 ∧
    render_scene_filename "$VIDEO_NAME-$SCENE_NUMBER" "clip" 1200 5 = "clip-0005" ∧
    scene_num_width 1000 = 3 ∧
    claimed_scene_num_width 1000 = 4 ∧
    render_scene_filename "$VIDEO_NAME-$SCENE_NUMBER" "clip" 1000 999 = "clip-999" ∧
    render_scene_filename "$VIDEO_NAME-$SCENE_NUMBER" "clip" 1000 1000 = "clip-1000" := by
  refine ⟨by decide, by decide, by decide, ?_, by decide, by decide⟩
  have h : Nat.log 10 1000 = 3 :=
    Nat.log_eq_of_pow_le_of_lt_pow (by norm_num) (by norm_num)
  rw [claimed_scene_num_width, h]
  decide

/-! ### Embedding of the two splitters -/

/-- Abstraction of the external `FrameTimecode` collaborator (out of
scope per the module boundary): the three observations the splitters make
of a timecode value — `get_timecode()`, `str(get_seconds())` and
`get_frames()`. -/
structure FrameTimecode where
  timecode : String
  secondsStr : String
  frames : Int
deriving DecidableEq

instance : Inhabited FrameTimecode := ⟨⟨"", "", 0⟩⟩

/-- Result of one simulated run of `split_video_mkvmerge`: the argument
vectors passed to `invoke_command`, the Python return value (`none`
embeds Python `None`), and the average-throughput figure if one was
reported. -/
structure MkvmergeRun where
  calls : List (List String)
  result : Option Int
  report : Option ℚ

/-- Embedding of `split_video_mkvmerge` (video_splitter.py:134-197).
`outcome` is the behaviour of the single `invoke_command` call;
`elapsed` the wall-clock seconds it took.  On `CommandTooLong`/`OSError`
the exception is caught, the throughput line is skipped, and the function
returns the pre-initialised `ret_val = 0`. -/
def split_video_mkvmerge (input_video_paths : List String)
    (scene_list : List (FrameTimecode × FrameTimecode))
    (output_file_template video_name : String) (suppress_output : Bool)
    (outcome : InvokeResult) (elapsed : ℚ) : MkvmergeRun :=
  if input_video_paths = [] ∨ scene_list = [] then ⟨[], Option.none, Option.none⟩
  else
    let output_file_name :=
      safe_substitute [("VIDEO_NAME", video_name)] (strip_scene_number output_file_template)
    let call_list : List String :=
      ["mkvmerge"] ++ (if suppress_output then ["--quiet"] else []) ++
        ["-o", output_file_name, "--split",
          "parts:" ++ String.intercalate ","
            (scene_list.map fun sc => sc.1.timecode ++ "-" ++ sc.2.timecode),
          String.intercalate " +" input_video_paths]
    let total_frames : Int :=
      (scene_list.getLast?.getD default).2.frames - (scene_list.head?.getD default).1.frames
    match outcome with
    | .ret c =>
      ⟨[call_list], some c,
        if suppress_output then Option.none else some ((total_frames : ℚ) / elapsed)⟩
    | .commandTooLong => ⟨[call_list], some 0, Option.none⟩
    | .osError => ⟨[call_list], some 0, Option.none⟩

/-- Python value returned by `split_video_ffmpeg`: `None`, an exit code,
or a raised `NotImplementedError`. -/
inductive FfmpegResult where
  | noop
  | exit (code : Int)
  | notImplementedError
deriving DecidableEq

/-- Result of one simulated run of `split_video_ffmpeg`: the argument
vectors passed to `invoke_command`, the outcome, and the
average-throughput figure if one was reported. -/
structure FfmpegRun where
  calls : List (List String)
  result : FfmpegResult
  report : Option ℚ

/-- Embedding of CPython `s.split(' ')`: split at every single space,
keeping empty fragments. -/
def splitSpace : List Char → List (List Char)
  | [] => [[]]
  | c :: rest =>
    if c = ' ' then [] :: splitSpace rest
    else
      match splitSpace rest with
      | [] => [[c]]
      | w :: ws => (c :: w) :: ws

/-- Embedding of CPython `s.split(' ')` on strings. -/
def pySplitSpace (s : String) : List String :=
  (splitSpace s.toList).map fun w => ⟨w⟩

/-- Embedding of the per-scene `call_list` construction in
`split_video_ffmpeg` (video_splitter.py:266-290) for 0-based scene index
`i` and scene `sc = (start_time, end_time)`; `tsub` is the external
`FrameTimecode` subtraction producing `duration = end_time - start_time`,
and `total` the scene-list length the number width was precomputed
from. -/
def ffmpeg_call_list (suppress_output : Bool) (i : Nat) (input_path : String)
    (arg_override : List String) (output_file_template video_name : String)
    (total : Nat) (tsub : FrameTimecode → FrameTimecode → FrameTimecode)
    (sc : FrameTimecode × FrameTimecode) : List String :=
  ["ffmpeg"] ++
    (if suppress_output then ["-v", "quiet"]
     else if i > 0 then ["-v", "error"] else []) ++
    ["-y", "-ss", sc.1.secondsStr, "-i", input_path, "-t", (tsub sc.2 sc.1).secondsStr] ++
    arg_override ++
    ["-sn", render_scene_filename output_file_template video_name total (i + 1)]

/-- Embedding of the per-scene loop of `split_video_ffmpeg`
(video_splitter.py:265-299), starting at scene index `i` with current
`ret_val = rv`.  Returns the argument vectors passed to `invoke_command`,
the final `ret_val`, and whether an exception
(`CommandTooLong`/`OSError`) aborted the loop: a zero exit code
continues, a nonzero one breaks, an exception leaves `ret_val`
unchanged. -/
def ffmpeg_loop (invoker : Nat → InvokeResult)
    (mkCall : Nat → FrameTimecode × FrameTimecode → List String) :
    List (FrameTimecode × FrameTimecode) → Nat → Int →
      List (List String) × Int × Bool
  | [], _, rv => ([], rv, false)
  | sc :: rest, i, rv =>
    let call := mkCall i sc
    match invoker i with
    | .ret c =>
      if c = 0 then
        let r := ffmpeg_loop invoker mkCall rest (i + 1) c
        (call :: r.1, r.2)
      else ([call], c, false)
    | _ => ([call], rv, true)

/-- Embedding of `split_video_ffmpeg` (video_splitter.py:200-310).
`invoker` gives the behaviour of the j-th `invoke_command` call,
`tqdm_present` whether the progress-bar library is importable, `elapsed`
the wall-clock seconds of the loop.  The throughput line is printed only
when a progress bar was active and no exception aborted the loop; a
caught exception leaves the last `ret_val` as the return value. -/
def split_video_ffmpeg (input_video_paths : List String)
    (scene_list : List (FrameTimecode × FrameTimecode))
    (output_file_template video_name arg_override : String)
    (hide_progress suppress_output : Bool)
    (tsub : FrameTimecode → FrameTimecode → FrameTimecode)
    (invoker : Nat → InvokeResult) (tqdm_present : Bool) (elapsed : ℚ) : FfmpegRun :=
  if input_video_paths = [] ∨ scene_list = [] then ⟨[], .noop, Option.none⟩
  else if input_video_paths.length > 1 then ⟨[], .notImplementedError, Option.none⟩
  else
    let args := pySplitSpace (pyReplace arg_override "\\\"" "\"")
    let mkCall := fun i sc =>
      ffmpeg_call_list suppress_output i (input_video_paths.headD "") args
        output_file_template video_name scene_list.length tsub sc
    let r := ffmpeg_loop invoker mkCall scene_list 0 0
    let total_frames : Int :=
      (scene_list.getLast?.getD default).2.frames - (scene_list.head?.getD default).1.frames
    ⟨r.1, .exit r.2.1,
      if (tqdm_present && !hide_progress) && !r.2.2 then some ((total_frames : ℚ) / elapsed)
      else Option.none⟩

/-! ### C6 -/

/-- C6: both splitters return the no-op sentinel (Python `None`) if and
only if the input path list or the scene list is empty, and in that case
no child process is spawned. -/
theorem c6_noop_iff_empty (inputs : List String)
    (scenes : List (FrameTimecode × FrameTimecode))
    (template videoName argOverride : String) (suppress hideP tqdmP : Bool)
    (outcome : InvokeResult) (invoker : Nat → InvokeResult)
    (tsub : FrameTimecode → FrameTimecode → FrameTimecode) (elapsed elapsed2 : ℚ) :
    ((split_video_mkvmerge inputs scenes template videoName suppress outcome elapsed).result
        = Option.none ↔ inputs = [] ∨ scenes = []) ∧
    ((split_video_ffmpeg inputs scenes template videoName argOverride hideP suppress tsub
        invoker tqdmP elapsed2).result = .noop ↔ inputs = [] ∨ scenes = []) ∧
    ((inputs = [] ∨ scenes = []) →
      (split_video_mkvmerge inputs scenes template videoName suppress outcome elapsed).calls = []
      ∧ (split_video_ffmpeg inputs scenes template videoName argOverride hideP suppress tsub
          invoker tqdmP elapsed2).calls = []) := by
  unfold split_video_mkvmerge split_video_ffmpeg
  by_cases h : inputs = [] ∨ scenes = []
  · simp [h]
  · rw [if_neg h, if_neg h]
    refine ⟨?_, ?_, fun hh => absurd hh h⟩
    · cases outcome <;> simp [h]
    · by_cases h2 : inputs.length > 1 <;> simp [h2, h]

/-- C6 witness: with empty inputs and scenes the remux splitter returns
the sentinel and spawns nothing. -/
theorem c6_noop_iff_empty_witness :
    (split_video_mkvmerge [] [] "" "" false (.ret 0) 1).result = Option.none ∧
    (split_video_mkvmerge [] [] "" "" false (.ret 0) 1).calls = [] := by
  have h := c6_noop_iff_empty [] [] "" "" "" false false false (.ret 0)
    (fun _ => .ret 0) (fun _ b => b) 1 1
  exact ⟨h.1.mpr (Or.inl rfl), (h.2.2 (Or.inl rfl)).1⟩

/-! ### C8 -/

/-- C8: with non-empty inputs and scenes the remux splitter passes exactly
one argument vector to the invoker: `mkvmerge`, the optional `--quiet`,
`-o` with the rendered output name, `--split` with a `parts:` directive
joining each scene's own start and end timecode text as `start-end`
pairs with commas in scene order, and the input paths joined by the
separator `' +'`. -/
theorem c8_mkvmerge_single_call (inputs : List String)
    (scenes : List (FrameTimecode × FrameTimecode)) (template videoName : String)
    (suppress : Bool) (outcome : InvokeResult) (elapsed : ℚ)
    (hin : inputs ≠ []) (hsc : scenes ≠ []) :
    (split_video_mkvmerge inputs scenes template videoName suppress outcome elapsed).calls =
      [["mkvmerge"] ++ (if suppress then ["--quiet"] else []) ++
        ["-o", safe_substitute [("VIDEO_NAME", videoName)] (strip_scene_number template),
         "--split",
         "parts:" ++ String.intercalate ","
           (scenes.map fun sc => sc.1.timecode ++ "-" ++ sc.2.timecode),
         String.intercalate " +" inputs]] := by
  unfold split_video_mkvmerge
  rw [if_neg (by simp [hin, hsc])]
  cases outcome <;> rfl

/-- C8 witness: a concrete two-input, one-scene run with suppression on
produces exactly the expected single mkvmerge argument vector. -/
theorem c8_mkvmerge_single_call_witness :
    (split_video_mkvmerge ["a.mkv", "b.mkv"]
        [(⟨"00:00:00.000", "0.0", 0⟩, ⟨"00:00:01.000", "1.0", 10⟩)]
        "$VIDEO_NAME-$SCENE_NUMBER" "clip" true (.ret 0) 1).calls =
      [["mkvmerge", "--quiet", "-o", "clip", "--split",
        "parts:00:00:00.000-00:00:01.000", "a.mkv +b.mkv"]] := by
  rw [c8_mkvmerge_single_call _ _ _ _ _ _ _ (by decide) (by decide)]
  decide

/-! ### C9 -/

/-- C9 counterexample: with output suppression on, one scene and a
successful invocation (exit code 0), the remux splitter reports no
throughput at all, contradicting the claim that it reports on success. -/
theorem c9_throughput_counterexample :
    (split_video_mkvmerge ["a.mkv"]
        [(⟨"00:00:00.000", "0.0", 0⟩, ⟨"00:00:01.000", "1.0", 10⟩)]
        "$VIDEO_NAME" "clip" true (.ret 0) 1).result = some 0 ∧
    (split_video_mkvmerge ["a.mkv"]
        [(⟨"00:00:00.000", "0.0", 0⟩, ⟨"00:00:01.000", "1.0", 10⟩)]
        "$VIDEO_NAME" "clip" true (.ret 0) 1).report = Option.none := by
  constructor <;> rfl

/-- C9 amended: whenever the single invocation returns normally (here
with exit code `c`, success or not) and output suppression is off, the
remux splitter reports average throughput equal to (last scene's end
frame − first scene's start frame) divided by the elapsed seconds; and a
report can only occur with a non-empty scene list. -/
theorem c9_throughput_amended (inputs : List String)
    (scenes : List (FrameTimecode × FrameTimecode)) (template videoName : String)
    (c : Int) (elapsed : ℚ) (hin : inputs ≠ []) (hsc : scenes ≠ []) :
    ((split_video_mkvmerge inputs scenes template videoName false (.ret c) elapsed).report
      = some ((((scenes.getLast?.getD default).2.frames
          - (scenes.head?.getD default).1.frames : Int) : ℚ) / elapsed)) ∧
    (∀ (scenes' : List (FrameTimecode × FrameTimecode)) (suppress : Bool)
        (outcome : InvokeResult),
      (split_video_mkvmerge inputs scenes' template videoName suppress outcome elapsed).report
          ≠ Option.none → scenes' ≠ []) := by
  constructor
  · unfold split_video_mkvmerge
    rw [if_neg (by simp [hin, hsc])]
    rfl
  · intro scenes' suppress outcome hrep hne
    apply hrep
    unfold split_video_mkvmerge
    rw [if_pos (Or.inr hne)]

/-- C9 witness: one scene spanning 10 frames, 2 elapsed seconds, exit
code 0, suppression off: the reported throughput is 5 frames/sec. -/
theorem c9_throughput_amended_witness :
    (split_video_mkvmerge ["a.mkv"]
        [(⟨"00:00:00.000", "0.0", 0⟩, ⟨"00:00:01.000", "1.0", 10⟩)]
        "$VIDEO_NAME" "clip" false (.ret 0) 2).report = some 5 := by
  rw [(c9_throughput_amended ["a.mkv"]
      [(⟨"00:00:00.000", "0.0", 0⟩, ⟨"00:00:01.000", "1.0", 10⟩)]
      "$VIDEO_NAME" "clip" 0 2 (by decide) (by decide)).1]
  norm_num

/-! ### C4 -/

/-- C4: with a non-empty scene list and more than one input path, the
transcode splitter raises `NotImplementedError` and spawns zero child
processes. -/
theorem c4_ffmpeg_multi_input (inputs : List String)
    (scenes : List (FrameTimecode × FrameTimecode))
    (template videoName argOverride : String) (hideP suppress tqdmP : Bool)
    (tsub : FrameTimecode → FrameTimecode → FrameTimecode)
    (invoker : Nat → InvokeResult) (elapsed : ℚ)
    (hsc : scenes ≠ []) (hlen : 1 < inputs.length) :
    (split_video_ffmpeg inputs scenes template videoName argOverride hideP suppress tsub
        invoker tqdmP elapsed).result = .notImplementedError ∧
    (split_video_ffmpeg inputs scenes template videoName argOverride hideP suppress tsub
        invoker tqdmP elapsed).calls = [] := by
  have hin : inputs ≠ [] := by
    intro h
    rw [h] at hlen
    simp at hlen
  unfold split_video_ffmpeg
  rw [if_neg (by simp [hin, hsc]), if_pos hlen]
  exact ⟨rfl, rfl⟩

/-- C4 witness: two inputs and one scene raise `NotImplementedError` with
zero invocations. -/
theorem c4_ffmpeg_multi_input_witness :
    (split_video_ffmpeg ["a.mp4", "b.mp4"]
        [(⟨"00:00:00.000", "0.0", 0⟩, ⟨"00:00:01.000", "1.0", 10⟩)]
        "$VIDEO_NAME-$SCENE_NUMBER" "clip" "-c:v libx264" false false (fun _ b => b)
        (fun _ => .ret 0) true 1).result = .notImplementedError ∧
    (split_video_ffmpeg ["a.mp4", "b.mp4"]
        [(⟨"00:00:00.000", "0.0", 0⟩, ⟨"00:00:01.000", "1.0", 10⟩)]
        "$VIDEO_NAME-$SCENE_NUMBER" "clip" "-c:v libx264" false false (fun _ b => b)
        (fun _ => .ret 0) true 1).calls = [] :=
  c4_ffmpeg_multi_input _ _ _ _ _ _ _ _ _ _ _ (by decide) (by decide)

/-! ### C3 -/

/-- If the invoker returns 0 for the first `f` scene indices counted from
`i` and a nonzero code `c` at index `i + f`, the per-scene loop performs
exactly `f + 1` invocations, ends with `ret_val = c`, and no exception is
raised. -/
theorem ffmpeg_loop_fail_at (invoker : Nat → InvokeResult)
    (mkCall : Nat → FrameTimecode × FrameTimecode → List String) (c : Int) (hc : c ≠ 0) :
    ∀ (scenes : List (FrameTimecode × FrameTimecode)) (i f : Nat) (rv : Int),
      f < scenes.length →
      (∀ j, j < f → invoker (i + j) = .ret 0) →
      invoker (i + f) = .ret c →
      (ffmpeg_loop invoker mkCall scenes i rv).1.length = f + 1 ∧
      (ffmpeg_loop invoker mkCall scenes i rv).2 = (c, false) := by
  intro scenes
  induction scenes with
  | nil =>
    intro i f rv hf
    simp at hf
  | cons sc rest ih =>
    intro i f rv hf hbefore hfail
    cases f with
    | zero =>
      rw [Nat.add_zero] at hfail
      simp only [ffmpeg_loop, hfail]
      rw [if_neg hc]
      exact ⟨rfl, rfl⟩
    | succ f =>
      have h0 : invoker i = .ret 0 := by
        have h := hbefore 0 (Nat.succ_pos f)
        rwa [Nat.add_zero] at h
      have ihh := ih (i + 1) f 0 (Nat.lt_of_succ_lt_succ hf)
        (fun j hj => by
          have h := hbefore (j + 1) (Nat.succ_lt_succ hj)
          rwa [show i + (j + 1) = i + 1 + j by omega] at h)
        (by rwa [show i + 1 + f = i + (f + 1) by omega])
      simp only [ffmpeg_loop, h0]
      rw [if_pos trivial]
      exact ⟨by simp [ihh.1], ihh.2⟩

/-- C3: for a single-input transcode split where the backend returns exit
code 0 for the scenes before the k-th (1-based) and a nonzero code `c`
for the k-th, exactly k invocations occur, the function returns `c`, and
the scenes after the k-th are never attempted. -/
theorem c3_ffmpeg_fail_fast (p : String)
    (scenes : List (FrameTimecode × FrameTimecode))
    (template videoName argOverride : String) (hideP suppress tqdmP : Bool)
    (tsub : FrameTimecode → FrameTimecode → FrameTimecode)
    (invoker : Nat → InvokeResult) (elapsed : ℚ) (k : Nat) (c : Int)
    (hk1 : 1 ≤ k) (hk : k ≤ scenes.length) (hc : c ≠ 0)
    (hbefore : ∀ j, j < k - 1 → invoker j = .ret 0)
    (hfail : invoker (k - 1) = .ret c) :
    (split_video_ffmpeg [p] scenes template videoName argOverride hideP suppress tsub
        invoker tqdmP elapsed).calls.length = k ∧
    (split_video_ffmpeg [p] scenes template videoName argOverride hideP suppress tsub
        invoker tqdmP elapsed).result = .exit c := by
  have hsc : scenes ≠ [] := by
    intro h
    rw [h] at hk
    simp at hk
    omega
  have hloop := ffmpeg_loop_fail_at invoker
    (fun i sc =>
      ffmpeg_call_list suppress i (([p] : List String).headD "")
        (pySplitSpace (pyReplace argOverride "\\\"" "\"")) template videoName
        scenes.length tsub sc)
    c hc scenes 0 (k - 1) 0 (by omega)
    (fun j hj => by
      have h := hbefore j hj
      rwa [Nat.zero_add])
    (by rwa [Nat.zero_add])
  unfold split_video_ffmpeg
  rw [if_neg (by simp [hsc]), if_neg (by simp)]
  refine ⟨?_, ?_⟩
  · show (ffmpeg_loop invoker _ scenes 0 0).1.length = k
    rw [hloop.1]
    omega
  · show FfmpegResult.exit (ffmpeg_loop invoker _ scenes 0 0).2.1 = .exit c
    rw [hloop.2]

/-- C3 witness: three scenes, backend succeeds on scene 1 and fails with
exit code 5 on scene 2: exactly 2 invocations and return value 5. -/
theorem c3_ffmpeg_fail_fast_witness :
    (split_video_ffmpeg ["a.mp4"]
        [(⟨"t0", "0.0", 0⟩, ⟨"t1", "1.0", 10⟩),
         (⟨"t1", "1.0", 10⟩, ⟨"t2", "2.0", 20⟩),
         (⟨"t2", "2.0", 20⟩, ⟨"t3", "3.0", 30⟩)]
        "$VIDEO_NAME-$SCENE_NUMBER" "clip" "-c:v libx264" false false (fun _ b => b)
        (fun n => if n = 0 then .ret 0 else .ret 5) true 1).calls.length = 2 ∧
    (split_video_ffmpeg ["a.mp4"]
        [(⟨"t0", "0.0", 0⟩, ⟨"t1", "1.0", 10⟩),
         (⟨"t1", "1.0", 10⟩, ⟨"t2", "2.0", 20⟩),
         (⟨"t2", "2.0", 20⟩, ⟨"t3", "3.0", 30⟩)]
        "$VIDEO_NAME-$SCENE_NUMBER" "clip" "-c:v libx264" false false (fun _ b => b)
        (fun n => if n = 0 then .ret 0 else .ret 5) true 1).result = .exit 5 :=
  c3_ffmpeg_fail_fast "a.mp4" _ _ _ _ _ _ _ _ _ _ 2 5
    (by decide) (by decide) (by decide)
    (fun j hj => by
      have h : j = 0 := by omega
      rw [h]
      rfl)
    (by decide)

/-! ### C10 -/

/-- C10: when the invoker raises `CommandTooLong` or `OSError` before any
scene's invocation returns — on the single remux invocation, or on the
first transcode invocation — both splitters catch the exception and
return exit code 0, the success code, indistinguishable from a fully
successful split. -/
theorem c10_exception_returns_zero (inputs : List String)
    (scenes : List (FrameTimecode × FrameTimecode))
    (p template videoName argOverride : String) (suppress hideP tqdmP : Bool)
    (outcome : InvokeResult) (invoker : Nat → InvokeResult)
    (tsub : FrameTimecode → FrameTimecode → FrameTimecode) (elapsed elapsed2 : ℚ)
    (hin : inputs ≠ []) (hsc : scenes ≠ [])
    (hout : outcome = .commandTooLong ∨ outcome = .osError)
    (hinv : invoker 0 = .commandTooLong ∨ invoker 0 = .osError) :
    (split_video_mkvmerge inputs scenes template videoName suppress outcome elapsed).result
        = some 0 ∧
    (split_video_ffmpeg [p] scenes template videoName argOverride hideP suppress tsub
        invoker tqdmP elapsed2).result = .exit 0 := by
  constructor
  · unfold split_video_mkvmerge
    rw [if_neg (by simp [hin, hsc])]
    rcases hout with h | h <;> rw [h]
  · unfold split_video_ffmpeg
    rw [if_neg (by simp [hsc]), if_neg (by simp)]
    cases scenes with
    | nil => exact absurd rfl hsc
    | cons sc rest =>
      show FfmpegResult.exit (ffmpeg_loop invoker _ (sc :: rest) 0 0).2.1 = .exit 0
      rcases hinv with h | h <;> simp only [ffmpeg_loop, h]

/-- C10 witness: a `CommandTooLong` on the only invocation makes both
splitters return 0. -/
theorem c10_exception_returns_zero_witness :
    (split_video_mkvmerge ["a.mkv"]
        [(⟨"t0", "0.0", 0⟩, ⟨"t1", "1.0", 10⟩)]
        "$VIDEO_NAME" "clip" false .commandTooLong 1).result = some 0 ∧
    (split_video_ffmpeg ["a.mp4"]
        [(⟨"t0", "0.0", 0⟩, ⟨"t1", "1.0", 10⟩)]
        "$VIDEO_NAME" "clip" "-c:v libx264" false false (fun _ b => b)
        (fun _ => .commandTooLong) true 1).result = .exit 0 :=
  c10_exception_returns_zero ["a.mkv"] [(⟨"t0", "0.0", 0⟩, ⟨"t1", "1.0", 10⟩)]
    "a.mp4" "$VIDEO_NAME" "clip" "-c:v libx264" false false true .commandTooLong
    (fun _ => .commandTooLong) (fun _ b => b) 1 1
    (by decide) (by decide) (Or.inl rfl) (Or.inl rfl)
